import Mathlib

/-!
Shallow embedding of the `detect-text` serverless handler of this repository.

The repository contains two variants of the handler:
  * `processV1` embeds `supabase/functions/detect-text/index.ts` (the canonical
    edge function): input validation (job id, payload presence, base64 size and
    format), unconditional transition to `processing`, credential check,
    Vision API call, sequential per-row inserts that log and continue past
    individual insert errors, and a catch block that returns 500 without
    touching the job record.
  * `processV2` embeds the revised handler found in the repository (the second
    document of `src/unnamed/part_001`): job fetch with not-found (404) and
    pending (409) checks, bulk insert of all detection rows, insert failure
    marking the job failed, and a catch block that tries to re-read the request
    body to mark the job failed.  Since `req.json()` at the start of the
    handler has already consumed the body stream, that re-read rejects and the
    failed-status update is skipped; the embedding reflects this.

The external collaborators are modelled explicitly: the relational store is a
`DB` value threaded through the handler, the Vision backend is a
`VisionOutcome` supplied in the `World`, and insert failures of the store are
an oracle `insertOk`.  Image payload strings are modelled as `List Char`.
Timestamps (`created_at` / `updated_at`) are elided: no claim concerns them.
-/

/-- Job lifecycle status, as constrained by the `valid_status` check of the
`detection_jobs` migration. -/
inductive JobStatus
  | pending
  | processing
  | completed
  | failed
deriving DecidableEq

/-- A row of `detection_jobs` (timestamps elided). -/
structure Job where
  id : String
  status : JobStatus
  error_message : Option String
deriving DecidableEq

/-- One vertex of a GCP `boundingPoly`. -/
structure Vertex where
  x : Int
  y : Int
deriving DecidableEq

/-- A jsonb value as stored in the `bounding_box` column of `detected_text`:
either a proper JSON array of vertices, a JSON string (what `JSON.stringify`
produces when inserted into a jsonb column), or SQL null. -/
inductive Jsonb
  | arr (vs : List Vertex)
  | str (s : String)
  | null
deriving DecidableEq

/-- A row of `detected_text` (id and created_at elided). -/
structure DetectionRow where
  job_id : String
  text_content : String
  confidence : ℚ
  bounding_box : Jsonb
  language : Option String
deriving DecidableEq

/-- One element of the Vision API `textAnnotations` list. -/
structure Annotation where
  description : String
  confidence : Option ℚ
  boundingPoly : Option (List Vertex)
  locale : Option String
deriving DecidableEq

/-- The relational store: `detection_jobs` plus insertion-ordered
`detected_text` rows. -/
structure DB where
  jobs : List Job
  detections : List DetectionRow
deriving DecidableEq

/-- The parsed JSON request body (`DetectionRequest` in the source).  A field
is `none` when absent from the body. -/
structure DetectionRequest where
  imageUrl : Option (List Char)
  imageBase64 : Option (List Char)
  jobId : Option String
deriving DecidableEq

/-- Outcome of the single Vision API call: the annotation list of a 2xx
response, or the error text of a non-2xx / transport failure. -/
inductive VisionOutcome
  | ok (annotations : List Annotation)
  | httpError (errorText : String)
deriving DecidableEq

/-- The `image` field sent to the Vision API: inline base64 content or a
remote image URI. -/
inductive ImageContent
  | inline (content : List Char)
  | byUrl (uri : List Char)
deriving DecidableEq

/-- The HTTP response of the handler: a 200 success body
(`success: true, message, detections`) or an error body (`status`, `error`). -/
inductive Resp
  | ok (message : String) (detections : List DetectionRow)
  | err (status : Nat) (error : String)
deriving DecidableEq

/-- Everything observable about one handler invocation: the HTTP response, the
final store state, and the argument of the Vision API call when one was
issued (`none` when the backend was never called). -/
structure Outcome where
  resp : Resp
  db : DB
  visionArg : Option ImageContent
deriving DecidableEq

/-- The environment of one invocation: initial store state, the
`GCP_VISION_API_KEY` environment variable, the outcome of the Vision call if
one is made, the per-attempt outcome of `detected_text` inserts (`insertOk n`
is the success of the n-th insert statement;  the bulk insert of `processV2`
is attempt 0), the store error messages, and the outcome of the job select of
`processV2`. -/
structure World where
  db : DB
  gcpApiKey : Option String
  vision : VisionOutcome
  insertOk : Nat → Bool
  insertErr : String
  fetchOk : Bool
  fetchErr : String

/-- JavaScript truthiness of an optional string (absent and `""` are falsy). -/
def truthyS : Option String → Bool
  | none => false
  | some s => !s.isEmpty

/-- JavaScript truthiness of an optional string payload. -/
def truthyL : Option (List Char) → Bool
  | none => false
  | some l => !l.isEmpty

/-- Characters matched by `[A-Za-z0-9+/]`. -/
def isB64Char (c : Char) : Bool := c.isAlphanum || c == '+' || c == '/'

/-- Characters matched by the regex class `\w`. -/
def isWordChar (c : Char) : Bool := c.isAlphanum || c == '_'

/-- `s.replace(/^data:image\/\w+;base64,/, "")`: strip a data-URL header when
one is present at the start of the string, otherwise return the string
unchanged.  `"data:image/"` has 11 characters and `";base64,"` has 8. -/
def stripDataUrl (l : List Char) : List Char :=
  if List.isPrefixOf ("data:image/".toList) l then
    let rest := l.drop 11
    let w := rest.takeWhile isWordChar
    let rest2 := rest.drop w.length
    if w.length > 0 && List.isPrefixOf (";base64,".toList) rest2 then
      rest2.drop 8
    else l
  else l

/-- `const maxSize = 10 * 1024 * 1024`. -/
def maxSize : ℚ := 10 * 1024 * 1024

/-- `const sizeInBytes = (base64Data.length * 3) / 4` — exact in IEEE doubles
for every string length that can occur, hence modelled in ℚ. -/
def sizeInBytes (l : List Char) : ℚ := (l.length * 3) / 4

/-- The test `sizeInBytes > maxSize` of the source, in an executable integer
form: over exact rationals `(n * 3) / 4 > m` iff `n * 3 > 4 * m`, which
`sizeExceeds_iff` below proves against the rational-valued `sizeInBytes`. -/
def sizeExceeds (l : List Char) : Bool :=
  decide (4 * (10 * 1024 * 1024) < l.length * 3)

/-- The regex test `/^[A-Za-z0-9+/]*={0,2}$/.test(base64Data)`: a run of
base64 characters followed by at most two `=`. -/
def base64FormatOk (l : List Char) : Bool :=
  let rest := l.drop ((l.takeWhile isB64Char).length)
  rest.all (fun c => c == '=') && decide (rest.length ≤ 2)

/-- `select ... .eq("id", jobId).maybeSingle()`. -/
def getJob (db : DB) (id : String) : Option Job :=
  db.jobs.find? (fun j => j.id == id)

/-- `update(...).eq("id", jobId)`: rewrite the matching rows (a no-op when the
id matches no row; the source never checks the result of these updates). -/
def updateJob (db : DB) (id : String) (f : Job → Job) : DB :=
  { db with jobs := db.jobs.map (fun j => if j.id == id then f j else j) }

/-- `update({ status, updated_at })`. -/
def setStatus (st : JobStatus) (j : Job) : Job := { j with status := st }

/-- `update({ status: "failed", error_message, updated_at })`. -/
def setFailed (msg : String) (j : Job) : Job :=
  { j with status := JobStatus.failed, error_message := some msg }

/-- `JSON.stringify` of one vertex. -/
def jsonVertex (v : Vertex) : String :=
  "\x7b\"x\":" ++ toString v.x ++ ",\"y\":" ++ toString v.y ++ "\x7d"

/-- `JSON.stringify(vertices)`. -/
def jsonOfVertices (vs : List Vertex) : String :=
  "[" ++ String.intercalate "," (vs.map jsonVertex) ++ "]"

/-- Reading a persisted `bounding_box` jsonb value back as an ordered point
sequence: only a JSON array of points decodes to points; a JSON string (the
result of storing a `JSON.stringify` output in a jsonb column) reads back as a
string, and null as nothing. -/
def decodeBB : Jsonb → Option (List Vertex)
  | .arr vs => some vs
  | .str _ => none
  | .null => none

/-- Reading one persisted detection row's bounding box back as points. -/
def decodeRowBB (r : DetectionRow) : Option (List Vertex) := decodeBB r.bounding_box

/-- The `detected_text` row built by `index.ts` for one annotation (the same
fields are used for `fullTextData` and `detectionData`): `confidence` via the
JS `||` default (so a 0 confidence is replaced by 0.95), `bounding_box` via
`JSON.stringify` (a jsonb string), `language` via `locale || null` (so an
empty locale becomes null). -/
def mkRowV1 (jobId : String) (a : Annotation) : DetectionRow :=
  { job_id := jobId
    text_content := a.description
    confidence := match a.confidence with
      | some c => if c = 0 then 0.95 else c
      | none => 0.95
    bounding_box := match a.boundingPoly with
      | some vs => Jsonb.str (jsonOfVertices vs)
      | none => Jsonb.null
    language := match a.locale with
      | some s => if s.isEmpty then none else some s
      | none => none }

/-- The `detected_text` row built by the revised handler: `confidence` via a
`typeof` check (0 is kept), `bounding_box` stored as proper JSON (no
stringify), `language` via `??` (an empty locale is kept). -/
def mkRowV2 (jobId : String) (a : Annotation) : DetectionRow :=
  { job_id := jobId
    text_content := a.description
    confidence := a.confidence.getD 0.95
    bounding_box := match a.boundingPoly with
      | some vs => Jsonb.arr vs
      | none => Jsonb.null
    language := a.locale }

/-- The `imageContent` selection, identical in both variants: base64 is
preferred when both payloads are present; with neither, an error is thrown. -/
def imageContentOf (rq : DetectionRequest) : Option ImageContent :=
  if truthyL rq.imageBase64 then
    some (ImageContent.inline (stripDataUrl (rq.imageBase64.getD [])))
  else if truthyL rq.imageUrl then
    some (ImageContent.byUrl (rq.imageUrl.getD []))
  else none

/-- The sequential insert loop of `index.ts`: each row is inserted in order,
an insert error is logged and skipped (`console.error` then continue), a
successful insert pushes the row onto `detectedTexts`.  Returns the rows that
were actually inserted, in order; `i` is the index of the next attempt. -/
def runInserts (ok : Nat → Bool) (i : Nat) : List DetectionRow → List DetectionRow
  | [] => []
  | r :: rs => if ok i then r :: runInserts ok (i + 1) rs else runInserts ok (i + 1) rs

/-- The string interpolation of a job status into the 409 message. -/
def statusText : JobStatus → String
  | .pending => "pending"
  | .processing => "processing"
  | .completed => "completed"
  | .failed => "failed"

/-- `index.ts` from the transition to `processing` onward (after all input
validation has passed). -/
def processV1main (w : World) (rq : DetectionRequest) (jobId : String) : Outcome :=
  let db1 := updateJob w.db jobId (setStatus JobStatus.processing)
  if !(truthyS w.gcpApiKey) then
    { resp := Resp.err 500 "GCP Vision API key not configured. Please set GCP_VISION_API_KEY in edge function secrets."
      db := updateJob db1 jobId (setFailed "GCP Vision API key not configured")
      visionArg := none }
  else
    match imageContentOf rq with
    | none =>
        -- `throw new Error(...)` reaching the catch block, which only returns
        -- the 500 response (it performs no job update in this variant)
        { resp := Resp.err 500 "Either imageUrl or imageBase64 must be provided"
          db := db1, visionArg := none }
    | some content =>
        match w.vision with
        | .httpError etext =>
            -- `throw new Error("GCP Vision API error: " + errorText)` reaching
            -- the catch block: 500 response, no job update
            { resp := Resp.err 500 ("GCP Vision API error: " ++ etext)
              db := db1, visionArg := some content }
        | .ok annots =>
            if annots.isEmpty then
              { resp := Resp.ok "No text detected in image" []
                db := updateJob db1 jobId (setStatus JobStatus.completed)
                visionArg := some content }
            else
              let rows := annots.map (mkRowV1 jobId)
              let inserted := runInserts w.insertOk 0 rows
              let db2 := { db1 with detections := db1.detections ++ inserted }
              { resp := Resp.ok ("Detected " ++ toString inserted.length ++ " text elements") inserted
                db := updateJob db2 jobId (setStatus JobStatus.completed)
                visionArg := some content }

/-- The handler of `supabase/functions/detect-text/index.ts`: job-id check,
payload-presence check, base64 size and format checks, then `processV1main`.
No job fetch is performed: there is no existence or pending-status check. -/
def processV1 (w : World) (rq : DetectionRequest) : Outcome :=
  if !(truthyS rq.jobId) then
    { resp := Resp.err 400 "Valid Job ID is required", db := w.db, visionArg := none }
  else
    let jobId := rq.jobId.getD ""
    if !(truthyL rq.imageUrl) && !(truthyL rq.imageBase64) then
      { resp := Resp.err 400 "Either imageUrl or imageBase64 must be provided"
        db := w.db, visionArg := none }
    else if truthyL rq.imageBase64 then
      let base64Data := stripDataUrl (rq.imageBase64.getD [])
      if sizeExceeds base64Data then
        { resp := Resp.err 400 "Image size exceeds 10MB limit", db := w.db, visionArg := none }
      else if !(base64FormatOk base64Data) then
        { resp := Resp.err 400 "Invalid base64 image format", db := w.db, visionArg := none }
      else processV1main w rq jobId
    else processV1main w rq jobId

/-- The revised handler from the transition to `processing` onward. -/
def processV2main (w : World) (rq : DetectionRequest) (jobId : String) : Outcome :=
  let db1 := updateJob w.db jobId (setStatus JobStatus.processing)
  if !(truthyS w.gcpApiKey) then
    { resp := Resp.err 500 "GCP Vision API key not configured. Please set GCP_VISION_API_KEY in edge function secrets."
      db := updateJob db1 jobId (setFailed "GCP Vision API key not configured")
      visionArg := none }
  else
    match imageContentOf rq with
    | none =>
        -- thrown error reaching the catch block; the catch re-reads the
        -- request body with `req.text()`, but `req.json()` already consumed
        -- the body stream, so the re-read rejects, `bodyText` is null and the
        -- failed-status update is skipped: only the 500 response is returned
        { resp := Resp.err 500 "Either imageUrl or imageBase64 must be provided"
          db := db1, visionArg := none }
    | some content =>
        match w.vision with
        | .httpError etext =>
            -- thrown error reaching the catch block: as above, the consumed
            -- body cannot be re-read, so the job is left in `processing`
            { resp := Resp.err 500 ("GCP Vision API error: " ++ etext)
              db := db1, visionArg := some content }
        | .ok annots =>
            if annots.isEmpty then
              { resp := Resp.ok "No text detected in image" []
                db := updateJob db1 jobId (setStatus JobStatus.completed)
                visionArg := some content }
            else
              let rows := annots.map (mkRowV2 jobId)
              if w.insertOk 0 then
                let db2 := { db1 with detections := db1.detections ++ rows }
                { resp := Resp.ok ("Detected " ++ toString rows.length ++ " text elements") rows
                  db := updateJob db2 jobId (setStatus JobStatus.completed)
                  visionArg := some content }
              else
                { resp := Resp.err 500 ("Failed to store detections: " ++ w.insertErr)
                  db := updateJob db1 jobId (setFailed ("Failed to store detections: " ++ w.insertErr))
                  visionArg := some content }

/-- The revised handler found in the repository: job-id check, job fetch with
fetch-error (500), not-found (404) and non-pending (409) branches, then
`processV2main`.  It performs no payload-presence, size or format validation
before the `processing` transition. -/
def processV2 (w : World) (rq : DetectionRequest) : Outcome :=
  if !(truthyS rq.jobId) then
    { resp := Resp.err 400 "Job ID is required", db := w.db, visionArg := none }
  else
    let jobId := rq.jobId.getD ""
    if !w.fetchOk then
      { resp := Resp.err 500 ("Failed to fetch job: " ++ w.fetchErr)
        db := w.db, visionArg := none }
    else
      match getJob w.db jobId with
      | none =>
          { resp := Resp.err 404 "Job not found", db := w.db, visionArg := none }
      | some job =>
          if job.status ≠ JobStatus.pending then
            { resp := Resp.err 409 ("Job is not pending (current status: " ++ statusText job.status ++ ")")
              db := w.db, visionArg := none }
          else processV2main w rq jobId

/-! ### Concrete fixtures used by the closed evaluations -/

/-- A pending job. -/
def jobPending : Job := { id := "job-1", status := JobStatus.pending, error_message := none }

/-- A completed (hence non-pending) job with the same id. -/
def jobCompleted : Job := { id := "job-1", status := JobStatus.completed, error_message := none }

/-- A store holding one pending job and no detections. -/
def dbPending : DB := { jobs := [jobPending], detections := [] }

/-- A store holding one completed job. -/
def dbCompleted : DB := { jobs := [jobCompleted], detections := [] }

/-- A store with no jobs at all. -/
def dbEmpty : DB := { jobs := [], detections := [] }

/-- A remote image reference. -/
def urlChars : List Char := "http://example.com/img.png".toList

/-- A request with a URL payload for job-1. -/
def rqUrl : DetectionRequest :=
  { imageUrl := some urlChars, imageBase64 := none, jobId := some "job-1" }

/-- The whole-image aggregate annotation (first element of `textAnnotations`). -/
def annotFull : Annotation :=
  { description := "Hello World", confidence := none
    boundingPoly := some [⟨0, 0⟩, ⟨10, 0⟩, ⟨10, 5⟩, ⟨0, 5⟩], locale := some "en" }

/-- An individual text-element annotation. -/
def annotWord : Annotation :=
  { description := "Hello", confidence := some (9 / 10)
    boundingPoly := some [⟨0, 0⟩, ⟨4, 0⟩, ⟨4, 5⟩, ⟨0, 5⟩], locale := none }

/-- An insert oracle on which every insert succeeds. -/
def allOk : Nat → Bool := fun _ => true

/-- An insert oracle on which only the first insert succeeds. -/
def firstOnlyOk : Nat → Bool := fun n => n == 0

/-- An insert oracle on which every insert fails. -/
def noneOk : Nat → Bool := fun _ => false

/-- A world where the Vision backend answers with a non-2xx error, over a
store holding one pending job. -/
def wUpstreamFail : World :=
  { db := dbPending, gcpApiKey := some "key", vision := VisionOutcome.httpError "boom"
    insertOk := allOk, insertErr := "duplicate key", fetchOk := true, fetchErr := "" }

/-- The same failing backend, over a store whose only job is completed. -/
def wNotPending : World :=
  { db := dbCompleted, gcpApiKey := some "key", vision := VisionOutcome.httpError "boom"
    insertOk := allOk, insertErr := "duplicate key", fetchOk := true, fetchErr := "" }

/-- A world whose backend detects no text, over a pending job. -/
def wIdle : World :=
  { db := dbPending, gcpApiKey := some "key", vision := VisionOutcome.ok []
    insertOk := allOk, insertErr := "", fetchOk := true, fetchErr := "" }

/-- A world whose backend reports one annotation, over an empty job store. -/
def wGhost : World :=
  { db := dbEmpty, gcpApiKey := some "key", vision := VisionOutcome.ok [annotFull]
    insertOk := allOk, insertErr := "", fetchOk := true, fetchErr := "" }

/-- A request for a job id that no job has. -/
def rqGhost : DetectionRequest :=
  { imageUrl := some urlChars, imageBase64 := none, jobId := some "ghost" }

/-- A request carrying both a URL payload and an inline base64 payload. -/
def rqBoth : DetectionRequest :=
  { imageUrl := some urlChars, imageBase64 := some ("QUJD".toList), jobId := some "job-1" }

/-- A request carrying no image payload at all. -/
def rqNoPayload : DetectionRequest :=
  { imageUrl := none, imageBase64 := none, jobId := some "job-1" }

/-- The inline payload of the C5 witness: 2^24 base64 characters, whose
decoded-size estimate is exactly 12 MiB. -/
def big12MiB : List Char := List.replicate 16777216 'A'

/-- The 12 MiB inline request of the C5 witness. -/
def rqBig : DetectionRequest :=
  { imageUrl := none, imageBase64 := some big12MiB, jobId := some "job-1" }

/-- A world whose backend reports two annotations, over a pending job, with
all inserts succeeding. -/
def wTwo : World :=
  { db := dbPending, gcpApiKey := some "key"
    vision := VisionOutcome.ok [annotFull, annotWord]
    insertOk := allOk, insertErr := "", fetchOk := true, fetchErr := "" }

/-- Two annotations over a pending job, but only the first insert succeeds. -/
def wSecondInsertFails : World :=
  { db := dbPending, gcpApiKey := some "key"
    vision := VisionOutcome.ok [annotFull, annotWord]
    insertOk := firstOnlyOk, insertErr := "duplicate key", fetchOk := true, fetchErr := "" }

/-- Two annotations over a pending job, with every insert failing. -/
def wBulkFail : World :=
  { db := dbPending, gcpApiKey := some "key"
    vision := VisionOutcome.ok [annotFull, annotWord]
    insertOk := noneOk, insertErr := "duplicate key", fetchOk := true, fetchErr := "" }

/-- One annotation over a pending job, all inserts succeeding. -/
def wOneAnnot : World :=
  { db := dbPending, gcpApiKey := some "key", vision := VisionOutcome.ok [annotFull]
    insertOk := allOk, insertErr := "", fetchOk := true, fetchErr := "" }

/-- A world with the `GCP_VISION_API_KEY` environment variable unset. -/
def wNoKey : World :=
  { db := dbPending, gcpApiKey := none, vision := VisionOutcome.ok []
    insertOk := allOk, insertErr := "", fetchOk := true, fetchErr := "" }

/-- The number of base64 padding characters of a string: everything after the
leading run of base64 characters (for a string passing `base64FormatOk`, that
tail consists of at most two `=`). -/
def padCount (l : List Char) : Nat := l.length - (l.takeWhile isB64Char).length

/-- The byte length of the canonical base64 decoding of a well-formed base64
string: 3 bytes per 4-character group, minus one byte per padding character. -/
def b64DecodedLen (l : List Char) : Nat := 3 * (l.length / 4) - padCount l

/-! ### Helper lemmas -/

theorem sizeExceeds_iff (l : List Char) :
    sizeExceeds l = true ↔ maxSize < sizeInBytes l := by
  rw [sizeExceeds, maxSize, sizeInBytes, decide_eq_true_iff,
    lt_div_iff₀ (by norm_num : (0 : ℚ) < 4)]
  rw [show (10 * 1024 * 1024 : ℚ) * 4 = ((4 * (10 * 1024 * 1024) : ℕ) : ℚ) by norm_num,
    show ((l.length : ℚ) * 3) = ((l.length * 3 : ℕ) : ℚ) by push_cast; ring,
    Nat.cast_lt]

/-- A job update never touches the `detected_text` rows. -/
theorem updateJob_detections (db : DB) (id : String) (f : Job → Job) :
    (updateJob db id f).detections = db.detections := rfl

theorem setStatus_id (st : JobStatus) (j : Job) : (setStatus st j).id = j.id := rfl

theorem setFailed_id (m : String) (j : Job) : (setFailed m j).id = j.id := rfl

theorem find?_map_update (l : List Job) (id : String) (f : Job → Job)
    (hf : ∀ j, (f j).id = j.id) :
    (l.map (fun j => if j.id == id then f j else j)).find? (fun j => j.id == id)
      = (l.find? (fun j => j.id == id)).map f := by
  induction l with
  | nil => rfl
  | cons j js ih =>
      by_cases h : (j.id == id) = true
      · have h2 : ((f j).id == id) = true := by rw [hf j]; exact h
        simp only [List.map_cons, List.find?_cons, if_pos h, h2, h, Option.map_some']
        simp [h2]
      · have h' : (j.id == id) = false := by simpa using h
        simp only [List.map_cons, List.find?_cons, if_neg h, h', ih]
        simp [h']

/-- Reading a job back after an id-preserving update. -/
theorem getJob_updateJob (db : DB) (id : String) (f : Job → Job)
    (hf : ∀ j, (f j).id = j.id) :
    getJob (updateJob db id f) id = (getJob db id).map f := by
  simpa [getJob, updateJob] using find?_map_update db.jobs id f hf

/-- When every insert succeeds, the sequential insert loop persists every row. -/
theorem runInserts_all (ok : Nat → Bool) (h : ∀ i, ok i = true) :
    ∀ (i : Nat) (rows : List DetectionRow), runInserts ok i rows = rows := by
  intro i rows
  induction rows generalizing i with
  | nil => rfl
  | cons r rs ih => simp [runInserts, h, ih]

/-- A URL-payload request with a valid job id passes all input validation of
`index.ts` and reaches the post-validation stage. -/
theorem processV1_url_path (w : World) (rq : DetectionRequest) (jobId : String) (u : List Char)
    (hid : rq.jobId = some jobId) (hne : jobId.isEmpty = false)
    (hru : rq.imageUrl = some u) (hu : u.isEmpty = false)
    (hrb : rq.imageBase64 = none) :
    processV1 w rq = processV1main w rq jobId := by
  simp [processV1, truthyS, truthyL, hid, hne, hru, hu, hrb]

/-- A request naming an existing pending job passes the fetch, not-found and
pending checks of the revised handler and reaches the post-validation stage. -/
theorem processV2_pending_path (w : World) (rq : DetectionRequest) (jobId : String) (job : Job)
    (hid : rq.jobId = some jobId) (hne : jobId.isEmpty = false)
    (hf : w.fetchOk = true) (hget : getJob w.db jobId = some job)
    (hst : job.status = JobStatus.pending) :
    processV2 w rq = processV2main w rq jobId := by
  simp [processV2, truthyS, hid, hne, hf, hget, hst]

/-- The `imageContent` selection for a URL-only request. -/
theorem imageContentOf_url (rq : DetectionRequest) (u : List Char)
    (hru : rq.imageUrl = some u) (hu : u.isEmpty = false) (hrb : rq.imageBase64 = none) :
    imageContentOf rq = some (ImageContent.byUrl u) := by
  simp [imageContentOf, truthyL, hru, hu, hrb]

theorem big12MiB_cons : big12MiB = 'A' :: List.replicate 16777215 'A' := by
  rw [big12MiB, show (16777216 : Nat) = 16777215 + 1 from rfl, List.replicate_succ]

theorem big12MiB_not_dataUrl :
    List.isPrefixOf ("data:image/".toList) big12MiB = false := by
  rw [big12MiB_cons, show ("data:image/".toList) = 'd' :: "ata:image/".toList from rfl]
  simp [List.isPrefixOf]

theorem stripDataUrl_big : stripDataUrl big12MiB = big12MiB := by
  unfold stripDataUrl
  rw [big12MiB_not_dataUrl]
  simp

theorem big12MiB_ne_empty : big12MiB.isEmpty = false := by
  rw [big12MiB_cons]; rfl

theorem sizeInBytes_big : sizeInBytes big12MiB = 12582912 := by
  rw [sizeInBytes, big12MiB, List.length_replicate]
  norm_num

/-- Round-trip of the revised handler's row constructor: the stored jsonb
value decodes back to exactly the original point sequence (and to nothing
when the annotation had no bounding polygon). -/
theorem decodeRowBB_mkRowV2 (jobId : String) (a : Annotation) :
    decodeRowBB (mkRowV2 jobId a) = a.boundingPoly := by
  cases h : a.boundingPoly <;> simp [decodeRowBB, mkRowV2, decodeBB, h]

/-! ### Claim theorems -/

/-- C1 (code_bug evidence): with a pending job, a valid request, the
credential present and an upstream Vision API error, both handler variants
return the 500 error response while leaving the job in status `processing`
with no `error_message` — the failure after the `processing` transition is
not recorded onto the job before the error response is returned. -/
theorem c1_upstream_error_leaves_job_processing :
    (processV1 wUpstreamFail rqUrl).resp = Resp.err 500 "GCP Vision API error: boom"
    ∧ getJob (processV1 wUpstreamFail rqUrl).db "job-1"
        = some { id := "job-1", status := JobStatus.processing, error_message := none }
    ∧ (processV2 wUpstreamFail rqUrl).resp = Resp.err 500 "GCP Vision API error: boom"
    ∧ getJob (processV2 wUpstreamFail rqUrl).db "job-1"
        = some { id := "job-1", status := JobStatus.processing, error_message := none } := by
  decide

/-- C2 counterexample: `index.ts` performs no pending-status check — invoked
on a job whose status is `completed`, it does not answer 409, it performs the
external backend call, and it moves the non-pending job back to `processing`. -/
theorem c2_counterexample :
    (processV1 wNotPending rqUrl).resp = Resp.err 500 "GCP Vision API error: boom"
    ∧ (processV1 wNotPending rqUrl).visionArg = some (ImageContent.byUrl urlChars)
    ∧ getJob (processV1 wNotPending rqUrl).db "job-1"
        = some { id := "job-1", status := JobStatus.processing, error_message := none } := by
  decide

/-- C2 (amended): in the revised handler variant, a request naming a job whose
current status is not `pending` is rejected with Conflict (HTTP 409), the
store is not mutated, and the external backend is not called — hence a second
sequential call on an already-advanced job observes Conflict and performs no
backend invocation. -/
theorem c2_v2_nonpending_conflict (w : World) (rq : DetectionRequest)
    (jobId : String) (job : Job)
    (hid : rq.jobId = some jobId) (hne : jobId.isEmpty = false)
    (hf : w.fetchOk = true) (hget : getJob w.db jobId = some job)
    (hst : job.status ≠ JobStatus.pending) :
    (processV2 w rq).resp
      = Resp.err 409 ("Job is not pending (current status: " ++ statusText job.status ++ ")")
    ∧ (processV2 w rq).db = w.db
    ∧ (processV2 w rq).visionArg = none := by
  refine ⟨?_, ?_, ?_⟩ <;> simp [processV2, truthyS, hid, hne, hf, hget, hst]

/-- C2 witness: the amended theorem applied to the completed job. -/
theorem c2_v2_nonpending_conflict_witness :
    (rqUrl.jobId = some "job-1") ∧ ("job-1".isEmpty = false)
    ∧ (wNotPending.fetchOk = true)
    ∧ (getJob wNotPending.db "job-1" = some jobCompleted)
    ∧ (jobCompleted.status ≠ JobStatus.pending)
    ∧ ((processV2 wNotPending rqUrl).resp
          = Resp.err 409 ("Job is not pending (current status: "
              ++ statusText jobCompleted.status ++ ")")
        ∧ (processV2 wNotPending rqUrl).db = wNotPending.db
        ∧ (processV2 wNotPending rqUrl).visionArg = none) :=
  ⟨rfl, by decide, rfl, by decide, by decide,
    c2_v2_nonpending_conflict wNotPending rqUrl "job-1" jobCompleted rfl (by decide) rfl
      (by decide) (by decide)⟩

/-- C3: with a pending job, a valid request, the credential present, a
backend response of N ≥ 1 annotations and a store accepting every insert,
both handler variants persist exactly N detection rows in the backend's
original order: the persisted rows are the image of the annotation list under
the row constructor, the first row's `text_content` is the first annotation's
text (the whole-image aggregate), and the row texts in order are exactly the
annotation texts in order. -/
theorem c3_n_annotations_n_rows (w : World) (rq : DetectionRequest)
    (jobId : String) (u : List Char) (job : Job) (annots : List Annotation)
    (hid : rq.jobId = some jobId) (hne : jobId.isEmpty = false)
    (hru : rq.imageUrl = some u) (hu : u.isEmpty = false) (hrb : rq.imageBase64 = none)
    (hkey : truthyS w.gcpApiKey = true)
    (hv : w.vision = VisionOutcome.ok annots) (hann : annots ≠ [])
    (hins : ∀ i, w.insertOk i = true)
    (hf : w.fetchOk = true) (hget : getJob w.db jobId = some job)
    (hst : job.status = JobStatus.pending) :
    (processV1 w rq).db.detections = w.db.detections ++ annots.map (mkRowV1 jobId)
    ∧ (processV2 w rq).db.detections = w.db.detections ++ annots.map (mkRowV2 jobId)
    ∧ (annots.map (mkRowV1 jobId)).length = annots.length
    ∧ (annots.map (mkRowV2 jobId)).length = annots.length
    ∧ (annots.map (mkRowV1 jobId)).map DetectionRow.text_content
        = annots.map Annotation.description
    ∧ (annots.map (mkRowV2 jobId)).map DetectionRow.text_content
        = annots.map Annotation.description
    ∧ (annots.map (mkRowV1 jobId)).head?.map DetectionRow.text_content
        = annots.head?.map Annotation.description
    ∧ (annots.map (mkRowV2 jobId)).head?.map DetectionRow.text_content
        = annots.head?.map Annotation.description := by
  obtain ⟨a, as, rfl⟩ : ∃ a as, annots = a :: as := by
    cases annots with
    | nil => exact absurd rfl hann
    | cons a as => exact ⟨a, as, rfl⟩
  rw [processV1_url_path w rq jobId u hid hne hru hu hrb,
    processV2_pending_path w rq jobId job hid hne hf hget hst]
  have hc := imageContentOf_url rq u hru hu hrb
  refine ⟨?_, ?_, ?_, ?_, ?_, ?_, ?_, ?_⟩
  · simp [processV1main, hkey, hc, hv, runInserts_all w.insertOk hins, updateJob_detections]
  · simp [processV2main, hkey, hc, hv, hins 0, updateJob_detections]
  · simp
  · simp
  · simp [mkRowV1]
  · simp [mkRowV2]
  · simp [mkRowV1]
  · simp [mkRowV2]

/-- C3 witness: the theorem applied to a two-annotation backend response. -/
theorem c3_n_annotations_n_rows_witness :
    (rqUrl.jobId = some "job-1") ∧ ("job-1".isEmpty = false)
    ∧ (rqUrl.imageUrl = some urlChars) ∧ (urlChars.isEmpty = false)
    ∧ (rqUrl.imageBase64 = none)
    ∧ (truthyS wTwo.gcpApiKey = true)
    ∧ (wTwo.vision = VisionOutcome.ok [annotFull, annotWord])
    ∧ ([annotFull, annotWord] ≠ ([] : List Annotation))
    ∧ (wTwo.insertOk = allOk)
    ∧ (wTwo.fetchOk = true) ∧ (getJob wTwo.db "job-1" = some jobPending)
    ∧ (jobPending.status = JobStatus.pending)
    ∧ ((processV1 wTwo rqUrl).db.detections
          = wTwo.db.detections ++ [annotFull, annotWord].map (mkRowV1 "job-1")
      ∧ (processV2 wTwo rqUrl).db.detections
          = wTwo.db.detections ++ [annotFull, annotWord].map (mkRowV2 "job-1")
      ∧ ([annotFull, annotWord].map (mkRowV1 "job-1")).length = [annotFull, annotWord].length
      ∧ ([annotFull, annotWord].map (mkRowV2 "job-1")).length = [annotFull, annotWord].length
      ∧ ([annotFull, annotWord].map (mkRowV1 "job-1")).map DetectionRow.text_content
          = [annotFull, annotWord].map Annotation.description
      ∧ ([annotFull, annotWord].map (mkRowV2 "job-1")).map DetectionRow.text_content
          = [annotFull, annotWord].map Annotation.description
      ∧ ([annotFull, annotWord].map (mkRowV1 "job-1")).head?.map DetectionRow.text_content
          = [annotFull, annotWord].head?.map Annotation.description
      ∧ ([annotFull, annotWord].map (mkRowV2 "job-1")).head?.map DetectionRow.text_content
          = [annotFull, annotWord].head?.map Annotation.description) :=
  ⟨rfl, by decide, rfl, by decide, rfl, by decide, rfl, List.cons_ne_nil _ _, rfl,
    rfl, by decide, rfl,
    c3_n_annotations_n_rows wTwo rqUrl "job-1" urlChars jobPending [annotFull, annotWord]
      rfl (by decide) rfl (by decide) rfl (by decide) rfl (List.cons_ne_nil _ _)
      (fun _ => rfl) rfl (by decide) rfl⟩

/-- C4 counterexample: in `index.ts`, when the second of two detection-row
inserts fails, the handler still reports success ("Detected 1 text
elements"), marks the job `completed`, and silently persists only one of the
two rows — it does not transition the job to `failed` and does not return a
PersistenceError response. -/
theorem c4_counterexample :
    (processV1 wSecondInsertFails rqUrl).resp
      = Resp.ok "Detected 1 text elements" [mkRowV1 "job-1" annotFull]
    ∧ getJob (processV1 wSecondInsertFails rqUrl).db "job-1"
        = some { id := "job-1", status := JobStatus.completed, error_message := none }
    ∧ (processV1 wSecondInsertFails rqUrl).db.detections = [mkRowV1 "job-1" annotFull] :=
  ⟨rfl, rfl, rfl⟩

/-- C4 (amended): in the revised bulk-insert handler variant, a failing
detection-row insert transitions the job to `failed` with an explanatory
`error_message`, returns a PersistenceError-class 500 response, persists no
detection rows, and performs no retry. -/
theorem c4_v2_insert_failure_marks_failed (w : World) (rq : DetectionRequest)
    (jobId : String) (u : List Char) (job : Job) (annots : List Annotation)
    (hid : rq.jobId = some jobId) (hne : jobId.isEmpty = false)
    (hru : rq.imageUrl = some u) (hu : u.isEmpty = false) (hrb : rq.imageBase64 = none)
    (hkey : truthyS w.gcpApiKey = true)
    (hv : w.vision = VisionOutcome.ok annots) (hann : annots ≠ [])
    (hbulk : w.insertOk 0 = false)
    (hf : w.fetchOk = true) (hget : getJob w.db jobId = some job)
    (hst : job.status = JobStatus.pending) :
    (processV2 w rq).resp = Resp.err 500 ("Failed to store detections: " ++ w.insertErr)
    ∧ getJob (processV2 w rq).db jobId
        = some { id := job.id, status := JobStatus.failed
                 error_message := some ("Failed to store detections: " ++ w.insertErr) }
    ∧ (processV2 w rq).db.detections = w.db.detections := by
  obtain ⟨a, as, rfl⟩ : ∃ a as, annots = a :: as := by
    cases annots with
    | nil => exact absurd rfl hann
    | cons a as => exact ⟨a, as, rfl⟩
  have hc := imageContentOf_url rq u hru hu hrb
  have hmain : processV2 w rq =
      { resp := Resp.err 500 ("Failed to store detections: " ++ w.insertErr)
        db := updateJob (updateJob w.db jobId (setStatus JobStatus.processing)) jobId
                (setFailed ("Failed to store detections: " ++ w.insertErr))
        visionArg := some (ImageContent.byUrl u) } := by
    rw [processV2_pending_path w rq jobId job hid hne hf hget hst]
    simp [processV2main, hkey, hc, hv, hbulk]
  rw [hmain]
  refine ⟨rfl, ?_, rfl⟩
  show getJob (updateJob (updateJob w.db jobId (setStatus JobStatus.processing)) jobId
    (setFailed ("Failed to store detections: " ++ w.insertErr))) jobId = _
  rw [getJob_updateJob _ jobId (setFailed ("Failed to store detections: " ++ w.insertErr))
      (fun j => rfl),
    getJob_updateJob _ jobId (setStatus JobStatus.processing) (fun j => rfl), hget]
  rfl

/-- C4 witness: the amended theorem applied to a failing bulk insert. -/
theorem c4_v2_insert_failure_marks_failed_witness :
    (rqUrl.jobId = some "job-1") ∧ ("job-1".isEmpty = false)
    ∧ (rqUrl.imageUrl = some urlChars) ∧ (urlChars.isEmpty = false)
    ∧ (rqUrl.imageBase64 = none)
    ∧ (truthyS wBulkFail.gcpApiKey = true)
    ∧ (wBulkFail.vision = VisionOutcome.ok [annotFull, annotWord])
    ∧ ([annotFull, annotWord] ≠ ([] : List Annotation))
    ∧ (wBulkFail.insertOk 0 = false)
    ∧ (wBulkFail.fetchOk = true) ∧ (getJob wBulkFail.db "job-1" = some jobPending)
    ∧ (jobPending.status = JobStatus.pending)
    ∧ ((processV2 wBulkFail rqUrl).resp
          = Resp.err 500 ("Failed to store detections: " ++ wBulkFail.insertErr)
      ∧ getJob (processV2 wBulkFail rqUrl).db "job-1"
          = some { id := jobPending.id, status := JobStatus.failed
                   error_message := some ("Failed to store detections: " ++ wBulkFail.insertErr) }
      ∧ (processV2 wBulkFail rqUrl).db.detections = wBulkFail.db.detections) :=
  ⟨rfl, by decide, rfl, by decide, rfl, by decide, rfl, List.cons_ne_nil _ _, rfl,
    rfl, by decide, rfl,
    c4_v2_insert_failure_marks_failed wBulkFail rqUrl "job-1" urlChars jobPending
      [annotFull, annotWord] rfl (by decide) rfl (by decide) rfl (by decide) rfl
      (List.cons_ne_nil _ _) rfl rfl (by decide) rfl⟩

/-- C5: a valid request whose inline base64 payload (after data-URL
stripping) has a size estimate above the 10 MiB limit is rejected by
`index.ts` with the PayloadTooLarge response (HTTP 400) before any state
transition: the store is returned unchanged and the backend is never called. -/
theorem c5_oversize_inline_payload_rejected (w : World) (rq : DetectionRequest)
    (jobId : String) (s : List Char)
    (hid : rq.jobId = some jobId) (hne : jobId.isEmpty = false)
    (hb : rq.imageBase64 = some s) (hs : s.isEmpty = false)
    (hsz : maxSize < sizeInBytes (stripDataUrl s)) :
    (processV1 w rq).resp = Resp.err 400 "Image size exceeds 10MB limit"
    ∧ (processV1 w rq).db = w.db
    ∧ (processV1 w rq).visionArg = none := by
  have hx : sizeExceeds (stripDataUrl s) = true := (sizeExceeds_iff _).mpr hsz
  refine ⟨?_, ?_, ?_⟩ <;> simp [processV1, truthyS, truthyL, hid, hne, hb, hs, hx]

/-- C5 witness: the theorem applied to a 12 MiB inline payload over a pending
job. -/
theorem c5_oversize_inline_payload_rejected_witness :
    (rqBig.jobId = some "job-1") ∧ ("job-1".isEmpty = false)
    ∧ (rqBig.imageBase64 = some big12MiB) ∧ (big12MiB.isEmpty = false)
    ∧ (maxSize < sizeInBytes (stripDataUrl big12MiB))
    ∧ ((processV1 wIdle rqBig).resp = Resp.err 400 "Image size exceeds 10MB limit"
        ∧ (processV1 wIdle rqBig).db = wIdle.db
        ∧ (processV1 wIdle rqBig).visionArg = none) := by
  have hsz : maxSize < sizeInBytes (stripDataUrl big12MiB) := by
    rw [stripDataUrl_big, sizeInBytes_big, maxSize]; norm_num
  exact ⟨rfl, by decide, rfl, big12MiB_ne_empty, hsz,
    c5_oversize_inline_payload_rejected wIdle rqBig "job-1" big12MiB rfl (by decide) rfl
      big12MiB_ne_empty hsz⟩

/-- C6 counterexample: `index.ts` performs no job-existence check — invoked
with a job id that references no job, it does not answer 404; it calls the
external backend and inserts `detected_text` rows referencing the nonexistent
job, then reports success. -/
theorem c6_counterexample :
    (processV1 wGhost rqGhost).resp
      = Resp.ok "Detected 1 text elements" [mkRowV1 "ghost" annotFull]
    ∧ (processV1 wGhost rqGhost).visionArg = some (ImageContent.byUrl urlChars)
    ∧ (processV1 wGhost rqGhost).db.detections = [mkRowV1 "ghost" annotFull] :=
  ⟨rfl, rfl, rfl⟩

/-- C6 (amended): in the revised handler variant, a request whose job id
references no existing job fails with NotFound (HTTP 404), the store is not
mutated, and the external backend is not called. -/
theorem c6_v2_unknown_job_not_found (w : World) (rq : DetectionRequest) (jobId : String)
    (hid : rq.jobId = some jobId) (hne : jobId.isEmpty = false)
    (hf : w.fetchOk = true) (hget : getJob w.db jobId = none) :
    (processV2 w rq).resp = Resp.err 404 "Job not found"
    ∧ (processV2 w rq).db = w.db
    ∧ (processV2 w rq).visionArg = none := by
  refine ⟨?_, ?_, ?_⟩ <;> simp [processV2, truthyS, hid, hne, hf, hget]

/-- C6 witness: the amended theorem applied to an unknown job id over an
empty store. -/
theorem c6_v2_unknown_job_not_found_witness :
    (rqGhost.jobId = some "ghost") ∧ ("ghost".isEmpty = false)
    ∧ (wGhost.fetchOk = true) ∧ (getJob wGhost.db "ghost" = none)
    ∧ ((processV2 wGhost rqGhost).resp = Resp.err 404 "Job not found"
        ∧ (processV2 wGhost rqGhost).db = wGhost.db
        ∧ (processV2 wGhost rqGhost).visionArg = none) :=
  ⟨rfl, by decide, rfl, by decide,
    c6_v2_unknown_job_not_found wGhost rqGhost "ghost" rfl (by decide) rfl (by decide)⟩

/-- C7: when the GCP Vision API key is absent, both handler variants
transition the job to `failed` with the fixed diagnostic message, return the
ServiceUnavailable-class 500 response, and never call the external backend. -/
theorem c7_missing_credential (w : World) (rq : DetectionRequest)
    (jobId : String) (u : List Char) (job : Job)
    (hid : rq.jobId = some jobId) (hne : jobId.isEmpty = false)
    (hru : rq.imageUrl = some u) (hu : u.isEmpty = false) (hrb : rq.imageBase64 = none)
    (hkey : truthyS w.gcpApiKey = false)
    (hf : w.fetchOk = true) (hget : getJob w.db jobId = some job)
    (hst : job.status = JobStatus.pending) :
    (processV1 w rq).resp
      = Resp.err 500 "GCP Vision API key not configured. Please set GCP_VISION_API_KEY in edge function secrets."
    ∧ getJob (processV1 w rq).db jobId
        = some { id := job.id, status := JobStatus.failed
                 error_message := some "GCP Vision API key not configured" }
    ∧ (processV1 w rq).visionArg = none
    ∧ (processV2 w rq).resp
      = Resp.err 500 "GCP Vision API key not configured. Please set GCP_VISION_API_KEY in edge function secrets."
    ∧ getJob (processV2 w rq).db jobId
        = some { id := job.id, status := JobStatus.failed
                 error_message := some "GCP Vision API key not configured" }
    ∧ (processV2 w rq).visionArg = none := by
  have hmain1 : processV1 w rq =
      { resp := Resp.err 500 "GCP Vision API key not configured. Please set GCP_VISION_API_KEY in edge function secrets."
        db := updateJob (updateJob w.db jobId (setStatus JobStatus.processing)) jobId
                (setFailed "GCP Vision API key not configured")
        visionArg := none } := by
    rw [processV1_url_path w rq jobId u hid hne hru hu hrb]
    simp [processV1main, hkey]
  have hmain2 : processV2 w rq =
      { resp := Resp.err 500 "GCP Vision API key not configured. Please set GCP_VISION_API_KEY in edge function secrets."
        db := updateJob (updateJob w.db jobId (setStatus JobStatus.processing)) jobId
                (setFailed "GCP Vision API key not configured")
        visionArg := none } := by
    rw [processV2_pending_path w rq jobId job hid hne hf hget hst]
    simp [processV2main, hkey]
  rw [hmain1, hmain2]
  refine ⟨rfl, ?_, rfl, rfl, ?_, rfl⟩ <;>
  · show getJob (updateJob (updateJob w.db jobId (setStatus JobStatus.processing)) jobId
      (setFailed "GCP Vision API key not configured")) jobId = _
    rw [getJob_updateJob _ jobId (setFailed "GCP Vision API key not configured") (fun j => rfl),
      getJob_updateJob _ jobId (setStatus JobStatus.processing) (fun j => rfl), hget]
    rfl

/-- C7 witness: the theorem applied to a world with no credential. -/
theorem c7_missing_credential_witness :
    (rqUrl.jobId = some "job-1") ∧ ("job-1".isEmpty = false)
    ∧ (rqUrl.imageUrl = some urlChars) ∧ (urlChars.isEmpty = false)
    ∧ (rqUrl.imageBase64 = none)
    ∧ (truthyS wNoKey.gcpApiKey = false)
    ∧ (wNoKey.fetchOk = true) ∧ (getJob wNoKey.db "job-1" = some jobPending)
    ∧ (jobPending.status = JobStatus.pending)
    ∧ ((processV1 wNoKey rqUrl).resp
        = Resp.err 500 "GCP Vision API key not configured. Please set GCP_VISION_API_KEY in edge function secrets."
      ∧ getJob (processV1 wNoKey rqUrl).db "job-1"
          = some { id := jobPending.id, status := JobStatus.failed
                   error_message := some "GCP Vision API key not configured" }
      ∧ (processV1 wNoKey rqUrl).visionArg = none
      ∧ (processV2 wNoKey rqUrl).resp
        = Resp.err 500 "GCP Vision API key not configured. Please set GCP_VISION_API_KEY in edge function secrets."
      ∧ getJob (processV2 wNoKey rqUrl).db "job-1"
          = some { id := jobPending.id, status := JobStatus.failed
                   error_message := some "GCP Vision API key not configured" }
      ∧ (processV2 wNoKey rqUrl).visionArg = none) :=
  ⟨rfl, by decide, rfl, by decide, rfl, rfl, rfl, by decide, rfl,
    c7_missing_credential wNoKey rqUrl "job-1" urlChars jobPending
      rfl (by decide) rfl (by decide) rfl rfl rfl (by decide) rfl⟩

/-- C8 counterexample: a request supplying BOTH a remote reference and an
inline base64 payload is not rejected — `index.ts` accepts it, prefers the
base64 payload for the backend call, and completes the job, so the payload is
not required to be exactly one of the two forms. -/
theorem c8_counterexample :
    (processV1 wIdle rqBoth).resp = Resp.ok "No text detected in image" []
    ∧ (processV1 wIdle rqBoth).visionArg = some (ImageContent.inline ("QUJD".toList))
    ∧ getJob (processV1 wIdle rqBoth).db "job-1"
        = some { id := "job-1", status := JobStatus.completed, error_message := none } :=
  ⟨rfl, rfl, rfl⟩

/-- C8 (amended): at least one of `imageUrl` and `imageBase64` is required —
a request supplying neither fails with InvalidInput (HTTP 400) before any
state mutation and without a backend call; when an inline base64 payload is
present it takes precedence in the `imageContent` selection. -/
theorem c8_at_least_one_payload_required (w : World) (rq : DetectionRequest)
    (jobId : String) (hid : rq.jobId = some jobId) (hne : jobId.isEmpty = false) :
    (truthyL rq.imageUrl = false → truthyL rq.imageBase64 = false →
      (processV1 w rq).resp = Resp.err 400 "Either imageUrl or imageBase64 must be provided"
      ∧ (processV1 w rq).db = w.db
      ∧ (processV1 w rq).visionArg = none)
    ∧ (truthyL rq.imageBase64 = true →
      imageContentOf rq
        = some (ImageContent.inline (stripDataUrl (rq.imageBase64.getD [])))) := by
  constructor
  · intro hu hb
    refine ⟨?_, ?_, ?_⟩ <;> simp [processV1, truthyS, hid, hne, hu, hb]
  · intro hb
    simp [imageContentOf, hb]

/-- C8 witness: the amended theorem applied to a payload-less request. -/
theorem c8_at_least_one_payload_required_witness :
    (rqNoPayload.jobId = some "job-1") ∧ ("job-1".isEmpty = false)
    ∧ ((truthyL rqNoPayload.imageUrl = false → truthyL rqNoPayload.imageBase64 = false →
        (processV1 wIdle rqNoPayload).resp
          = Resp.err 400 "Either imageUrl or imageBase64 must be provided"
        ∧ (processV1 wIdle rqNoPayload).db = wIdle.db
        ∧ (processV1 wIdle rqNoPayload).visionArg = none)
      ∧ (truthyL rqNoPayload.imageBase64 = true →
        imageContentOf rqNoPayload
          = some (ImageContent.inline (stripDataUrl (rqNoPayload.imageBase64.getD []))))) :=
  ⟨rfl, by decide,
    c8_at_least_one_payload_required wIdle rqNoPayload "job-1" rfl (by decide)⟩

/-- C9 counterexample: `index.ts` stores `JSON.stringify(vertices)` into the
jsonb `bounding_box` column, so the persisted value is a JSON string — the
detection inserted for a 4-point bounding box reads back as a string, not as
the original 4-point sequence. -/
theorem c9_counterexample :
    annotFull.boundingPoly = some [⟨0, 0⟩, ⟨10, 0⟩, ⟨10, 5⟩, ⟨0, 5⟩]
    ∧ (processV1 wOneAnnot rqUrl).db.detections.map decodeRowBB = [none]
    ∧ (processV1 wOneAnnot rqUrl).db.detections.map DetectionRow.bounding_box
        = [Jsonb.str "[\x7b\"x\":0,\"y\":0\x7d,\x7b\"x\":10,\"y\":0\x7d,\x7b\"x\":10,\"y\":5\x7d,\x7b\"x\":0,\"y\":5\x7d]"] :=
  ⟨rfl, rfl, rfl⟩

/-- C9 (amended): in the revised handler variant, which stores the vertex
array as proper JSON, every persisted detection row's `bounding_box` decodes
back to exactly the annotation's original point sequence in the same order —
the persisted rows being the annotation list's image under the row
constructor, their decoded bounding boxes are the annotations' bounding
polygons in order. -/
theorem c9_v2_bounding_box_roundtrip (w : World) (rq : DetectionRequest)
    (jobId : String) (u : List Char) (job : Job) (annots : List Annotation)
    (hid : rq.jobId = some jobId) (hne : jobId.isEmpty = false)
    (hru : rq.imageUrl = some u) (hu : u.isEmpty = false) (hrb : rq.imageBase64 = none)
    (hkey : truthyS w.gcpApiKey = true)
    (hv : w.vision = VisionOutcome.ok annots) (hann : annots ≠ [])
    (hbulk : w.insertOk 0 = true)
    (hf : w.fetchOk = true) (hget : getJob w.db jobId = some job)
    (hst : job.status = JobStatus.pending) :
    (processV2 w rq).db.detections = w.db.detections ++ annots.map (mkRowV2 jobId)
    ∧ (annots.map (mkRowV2 jobId)).map decodeRowBB = annots.map Annotation.boundingPoly := by
  obtain ⟨a, as, rfl⟩ : ∃ a as, annots = a :: as := by
    cases annots with
    | nil => exact absurd rfl hann
    | cons a as => exact ⟨a, as, rfl⟩
  have hc := imageContentOf_url rq u hru hu hrb
  constructor
  · rw [processV2_pending_path w rq jobId job hid hne hf hget hst]
    simp [processV2main, hkey, hc, hv, hbulk, updateJob_detections]
  · simp [List.map_map, Function.comp, decodeRowBB_mkRowV2]

/-- C9 witness: the amended theorem applied to a 4-point bounding box. -/
theorem c9_v2_bounding_box_roundtrip_witness :
    (rqUrl.jobId = some "job-1") ∧ ("job-1".isEmpty = false)
    ∧ (rqUrl.imageUrl = some urlChars) ∧ (urlChars.isEmpty = false)
    ∧ (rqUrl.imageBase64 = none)
    ∧ (truthyS wOneAnnot.gcpApiKey = true)
    ∧ (wOneAnnot.vision = VisionOutcome.ok [annotFull])
    ∧ ([annotFull] ≠ ([] : List Annotation))
    ∧ (wOneAnnot.insertOk 0 = true)
    ∧ (wOneAnnot.fetchOk = true) ∧ (getJob wOneAnnot.db "job-1" = some jobPending)
    ∧ (jobPending.status = JobStatus.pending)
    ∧ ((processV2 wOneAnnot rqUrl).db.detections
          = wOneAnnot.db.detections ++ [annotFull].map (mkRowV2 "job-1")
      ∧ ([annotFull].map (mkRowV2 "job-1")).map decodeRowBB
          = [annotFull].map Annotation.boundingPoly) :=
  ⟨rfl, by decide, rfl, by decide, rfl, by decide, rfl, List.cons_ne_nil _ _, rfl,
    rfl, by decide, rfl,
    c9_v2_bounding_box_roundtrip wOneAnnot rqUrl "job-1" urlChars jobPending [annotFull]
      rfl (by decide) rfl (by decide) rfl (by decide) rfl (List.cons_ne_nil _ _) rfl
      rfl (by decide) rfl⟩

/-- C10: the size check computes `(length * 3) / 4` without subtracting
padding, which is at least the true decoded byte length, so every inline
payload the check admits decodes to at most 10 MiB; conversely a rejected
well-formed payload has a true decoded size of at least the limit minus two
bytes. -/
theorem c10_size_estimate_conservative (s : List Char)
    (hfmt : base64FormatOk s = true) (hlen : s.length % 4 = 0) :
    ((b64DecodedLen s : ℚ) ≤ sizeInBytes s)
    ∧ (¬ maxSize < sizeInBytes s → (b64DecodedLen s : ℚ) ≤ maxSize)
    ∧ (maxSize < sizeInBytes s → maxSize ≤ (b64DecodedLen s : ℚ) + 2) := by
  have hp : padCount s ≤ 2 := by
    have h := hfmt
    rw [base64FormatOk, Bool.and_eq_true, decide_eq_true_iff] at h
    simpa [padCount, List.length_drop] using h.2
  have hdvd := Nat.dvd_of_mod_eq_zero hlen
  set k := s.length / 4 with hkdef
  have hk : s.length = 4 * k := (Nat.mul_div_cancel' hdvd).symm
  have hsz : sizeInBytes s = (3 * k : ℚ) := by
    rw [sizeInBytes, hk]; push_cast; ring
  have hb : b64DecodedLen s = 3 * k - padCount s := rfl
  have hcast : ((3 * k - padCount s : ℕ) : ℚ) ≤ ((3 * k : ℕ) : ℚ) :=
    Nat.cast_le.mpr (Nat.sub_le _ _)
  refine ⟨?_, ?_, ?_⟩
  · rw [hsz, hb]
    calc ((3 * k - padCount s : ℕ) : ℚ) ≤ ((3 * k : ℕ) : ℚ) := hcast
      _ = (3 * k : ℚ) := by push_cast; ring
  · intro h
    rw [not_lt, hsz] at h
    rw [hb]
    calc ((3 * k - padCount s : ℕ) : ℚ) ≤ ((3 * k : ℕ) : ℚ) := hcast
      _ = (3 * k : ℚ) := by push_cast; ring
      _ ≤ maxSize := h
  · intro h
    rw [hsz, maxSize] at h
    have h3k : 10485760 < 3 * k := by
      exact_mod_cast (by norm_num at h ⊢; exact h : (10485760 : ℚ) < 3 * k)
    have hnat : 10485760 ≤ (3 * k - padCount s) + 2 := by omega
    rw [hb, maxSize]
    calc (10 * 1024 * 1024 : ℚ) = ((10485760 : ℕ) : ℚ) := by norm_num
      _ ≤ (((3 * k - padCount s) + 2 : ℕ) : ℚ) := Nat.cast_le.mpr hnat
      _ = ((3 * k - padCount s : ℕ) : ℚ) + 2 := by push_cast; ring

/-- C10 witness: the theorem applied to the 4-character base64 string
"QUJD", which decodes to 3 bytes. -/
theorem c10_size_estimate_conservative_witness :
    (base64FormatOk ("QUJD".toList) = true) ∧ (("QUJD".toList).length % 4 = 0)
    ∧ (((b64DecodedLen ("QUJD".toList) : ℚ) ≤ sizeInBytes ("QUJD".toList))
      ∧ (¬ maxSize < sizeInBytes ("QUJD".toList) →
          (b64DecodedLen ("QUJD".toList) : ℚ) ≤ maxSize)
      ∧ (maxSize < sizeInBytes ("QUJD".toList) →
          maxSize ≤ (b64DecodedLen ("QUJD".toList) : ℚ) + 2)) :=
  ⟨by decide, by decide,
    c10_size_estimate_conservative ("QUJD".toList) (by decide) (by decide)⟩
